import Mathlib

/-!
Shallow embedding of the Ticketmaster fraud-detection engine
(solutions/system_design/ticket_master/src/fraud_detection.py) and proofs
about its behaviour.

Modelling conventions:
- Python floats are modelled as `Rat`; every score in the engine is produced
  by integer-valued arithmetic (sums of small integers), so exact rational
  arithmetic is faithful for the properties below.
- A timestamp string is modelled by `TimeStr`: either a string that
  `datetime.fromisoformat` parses (carrying its value as seconds since an
  arbitrary epoch) or a malformed string on which parsing raises.
- Elasticsearch is an external collaborator: each query's response is an
  input (`Except String _`, with `Except.error` standing for a raised
  exception on the read path).  The search for a session sorts hits by
  timestamp descending; the hit list handed to `get_session_data` is the
  response in that server-side order.
- The assessment-store write swallows its own errors and does not affect
  the returned assessment, so it is omitted from the embedding.
-/

namespace FraudDetection

/-- A timestamp field: either parseable (with its value, in seconds) or a
string `datetime.fromisoformat` rejects. -/
inductive TimeStr where
  | valid (t : Rat)
  | malformed (s : String)
deriving DecidableEq, Repr

/-- `datetime.fromisoformat(ts.replace('Z', '+00:00'))`: returns the parsed
time or raises on a malformed string. -/
def parseTimestamp : TimeStr → Except String Rat
  | .valid t => .ok t
  | .malformed s => .error s

/-- One user-behaviour document (`hit["_source"]`): the fields the engine
reads.  Absent keys are `none`; `quantity` defaults to 1 via `.get`. -/
structure Action where
  action_type : Option String
  timestamp : TimeStr
  event_id : Option String
  quantity : Option Int
  ip_address : Option String
deriving DecidableEq, Repr

/-- Python truthiness of an optional string: `None` and `""` are falsy. -/
def truthyStr : Option String → Bool
  | some s => s ≠ ""
  | none => false

/-- A diagnostic value stored in an indicator's `evidence` dict. -/
inductive Evid where
  | nat (n : Nat)
  | int (n : Int)
  | rat (q : Rat)
  | str (s : String)
  | optStr (s : Option String)
  | strList (l : List String)
  | optStrList (l : List (Option String))
  | ts (t : TimeStr)
deriving DecidableEq, Repr

/-- `RiskIndicator` dataclass. -/
structure RiskIndicator where
  indicator : String
  score : Rat
  description : String
  evidence : List (String × Evid)
deriving DecidableEq, Repr

/-- `FraudAssessment` dataclass.  `timestamp` is the `datetime.utcnow()`
value, passed in as `now` by the environment. -/
structure FraudAssessment where
  session_id : String
  user_id : Option String
  total_risk_score : Rat
  risk_level : String
  indicators : List RiskIndicator
  recommended_action : String
  timestamp : Rat
deriving DecidableEq, Repr

/-- `self.risk_thresholds` of `TicketmasterFraudDetection.__init__`. -/
def risk_thresholds : List (String × Nat) :=
  [("LOW", 25), ("MEDIUM", 50), ("HIGH", 75), ("CRITICAL", 90)]

/-- `_calculate_risk_level`: bucket the total score, inclusive lower edges. -/
def calculate_risk_level (total_score : Rat) : String :=
  if total_score ≥ 90 then "CRITICAL"
  else if total_score ≥ 75 then "HIGH"
  else if total_score ≥ 50 then "MEDIUM"
  else "LOW"

/-- `_get_recommended_action`: the indicator list is accepted but unused. -/
def get_recommended_action (risk_level : String)
    (_indicators : List RiskIndicator) : String :=
  if risk_level = "CRITICAL" then "BLOCK_IMMEDIATELY"
  else if risk_level = "HIGH" then "REQUIRE_VERIFICATION"
  else if risk_level = "MEDIUM" then "ADD_FRICTION"
  else "MONITOR"

/-- Spec-side restatement of the risk-level thresholds, written from the
spec's words: CRITICAL if `s ≥ 90`, else HIGH if `s ≥ 75`, else MEDIUM if
`s ≥ 50`, else LOW. -/
def specRiskLevel (s : Rat) : String :=
  if s ≥ 90 then "CRITICAL"
  else if s ≥ 75 then "HIGH"
  else if s ≥ 50 then "MEDIUM"
  else "LOW"

/-- Spec-side restatement of the action table: CRITICAL → BLOCK_IMMEDIATELY,
HIGH → REQUIRE_VERIFICATION, MEDIUM → ADD_FRICTION, LOW → MONITOR. -/
def specRecommendedAction (level : String) : String :=
  if level = "CRITICAL" then "BLOCK_IMMEDIATELY"
  else if level = "HIGH" then "REQUIRE_VERIFICATION"
  else if level = "MEDIUM" then "ADD_FRICTION"
  else "MONITOR"

/-- The dict `_get_session_data` builds from a non-empty hit list: the hit
sources plus the first and last hits' timestamp fields. -/
structure SessionData where
  actions : List Action
  session_start : TimeStr
  latest_action : TimeStr
deriving DecidableEq, Repr

/-- `_get_session_data`: a raised search exception is caught and yields
`none`; zero hits also yield `none`; otherwise the hits — which the store
returns sorted by timestamp descending — become the action list,
`session_start` is the last hit's timestamp and `latest_action` the
first's. -/
def get_session_data (searchResp : Except String (List Action)) :
    Option SessionData :=
  match searchResp with
  | .error _ => none
  | .ok [] => none
  | .ok (first :: rest) =>
      some { actions := first :: rest
             session_start := ((first :: rest).getLast (List.cons_ne_nil first rest)).timestamp
             latest_action := first.timestamp }

/-- The time-gap loop shared by `_detect_rapid_fire_behavior` and
`_detect_bot_patterns`: for each consecutive pair of the action list (in
list order), parse both timestamps and record `curr - prev` seconds; the
first malformed timestamp raises. -/
def timeGaps : List Action → Except String (List Rat)
  | a :: b :: rest => do
      let prev_time ← parseTimestamp a.timestamp
      let curr_time ← parseTimestamp b.timestamp
      let glist ← timeGaps (b :: rest)
      pure ((curr_time - prev_time) :: glist)
  | _ => .ok []

/-- Python `min` over a list, with default `d` for the empty case (the
callers only evaluate it on non-empty lists). -/
def listMinD (d : Rat) : List Rat → Rat
  | [] => d
  | x :: xs => xs.foldl min x

/-- `_detect_rapid_fire_behavior`. -/
def detect_rapid_fire_behavior (session_data : SessionData) :
    Except String (List RiskIndicator) := do
  let actions := session_data.actions
  if actions.length < 2 then
    pure []
  else
    let time_gaps ← timeGaps actions
    let rapid_actions := time_gaps.filter (fun gap => gap < 2)
    let rcount := rapid_actions.length
    let inds1 : List RiskIndicator :=
      if rcount > 5 then
        [{ indicator := "rapid_fire_clicks"
           score := 30
           description := s!"Detected {rcount} rapid-fire actions (< 2s intervals)"
           evidence := [("rapid_action_count", .nat rcount),
                        ("avg_gap", .rat (time_gaps.sum / (time_gaps.length : Rat))),
                        ("min_gap", .rat (listMinD 0 time_gaps))] }]
      else []
    let superhuman_actions := time_gaps.filter (fun gap => gap < 1/2)
    let scount := superhuman_actions.length
    let inds2 : List RiskIndicator :=
      if scount > 3 then
        [{ indicator := "superhuman_speed"
           score := 50
           description := s!"Detected {scount} superhuman-speed actions"
           evidence := [("superhuman_count", .nat scount),
                        ("fastest_action", .rat (listMinD 0 time_gaps))] }]
      else []
    pure (inds1 ++ inds2)

/-- The count of distinct truthy `event_id` values in a session
(`len(set(...))` in the cumulative-quantity evidence). -/
def uniqueEventCount (actions : List Action) : Nat :=
  ((actions.filterMap (fun action =>
      if truthyStr action.event_id then action.event_id else none)).dedup).length

/-- The body of `_detect_high_quantity_purchases`' first loop: an
`add_to_cart` action requesting more than 10 tickets yields a
`high_quantity_single` indicator scaled with the quantity. -/
def hqSingleEntry (action : Action) : Option RiskIndicator :=
  if action.action_type = some "add_to_cart" then
    let quantity := action.quantity.getD 1
    if quantity > 10 then
      some { indicator := "high_quantity_single"
             score := 25 + min ((quantity : Rat) * 2) 50
             description := s!"Attempted to purchase {quantity} tickets in single transaction"
             evidence := [("quantity", .int quantity),
                          ("event_id", .optStr action.event_id),
                          ("timestamp", .ts action.timestamp)] }
    else none
  else none

/-- The cumulative sum of `_detect_high_quantity_purchases`: `quantity`
(default 1) summed over the session's `add_to_cart` actions. -/
def cartTotalQuantity (actions : List Action) : Int :=
  ((actions.filter (fun action => action.action_type = some "add_to_cart")).map
    (fun action => action.quantity.getD 1)).sum

/-- The cumulative step of `_detect_high_quantity_purchases`: one
`high_quantity_cumulative` indicator when the session's summed cart
quantity strictly exceeds 20, nothing otherwise. -/
def hqCumulativeEntry (actions : List Action) : List RiskIndicator :=
  let total_quantity : Int := cartTotalQuantity actions
  if total_quantity > 20 then
    [{ indicator := "high_quantity_cumulative"
       score := 20 + min (total_quantity : Rat) 60
       description := s!"Attempted to purchase {total_quantity} total tickets in session"
       evidence := [("total_quantity", .int total_quantity),
                    ("unique_events", .nat (uniqueEventCount actions))] }]
  else []

/-- `_detect_high_quantity_purchases`. -/
def detect_high_quantity_purchases (session_data : SessionData) :
    List RiskIndicator :=
  let actions := session_data.actions
  let singles := actions.filterMap hqSingleEntry
  let cumulative : List RiskIndicator := hqCumulativeEntry actions
  singles ++ cumulative

/-- `_detect_multiple_event_targeting`. -/
def detect_multiple_event_targeting (session_data : SessionData) :
    List RiskIndicator :=
  let actions := session_data.actions
  let targeted_events := (actions.filterMap (fun action =>
      if truthyStr action.event_id &&
         (action.action_type == some "search" || action.action_type == some "view" ||
          action.action_type == some "add_to_cart") then
        action.event_id
      else none)).dedup
  let ecount := targeted_events.length
  if ecount > 5 then
    [{ indicator := "multiple_event_targeting"
       score := 15 + min ((ecount : Rat) * 3) 45
       description := s!"Targeted {ecount} different events in single session"
       evidence := [("event_count", .nat ecount),
                    ("events", .strList (targeted_events.take 10))] }]
  else []

/-- `_detect_bot_patterns`. -/
def detect_bot_patterns (session_data : SessionData) :
    Except String (List RiskIndicator) := do
  let actions := session_data.actions
  if actions.isEmpty then
    pure []
  else
    let time_gaps ← timeGaps actions
    let inds1 : List RiskIndicator :=
      if time_gaps.length > 5 then
        let avg_gap := time_gaps.sum / (time_gaps.length : Rat)
        let variance :=
          ((time_gaps.map (fun gap => (gap - avg_gap) ^ 2)).sum) / (time_gaps.length : Rat)
        if variance < 1/2 ∧ avg_gap < 5 then
          [{ indicator := "consistent_timing_pattern"
             score := 35
             description := "Detected bot-like consistent timing pattern"
             evidence := [("avg_gap", .rat avg_gap),
                          ("variance", .rat variance),
                          ("action_count", .nat actions.length)] }]
        else []
      else []
    let action_types := (actions.map (fun action => action.action_type)).dedup
    let human_behaviors := ["scroll", "hover", "back_button", "page_refresh"]
    let missing_behaviors :=
      human_behaviors.filter (fun b => ! action_types.contains (some b))
    let inds2 : List RiskIndicator :=
      if missing_behaviors.length ≥ 3 ∧ actions.length > 10 then
        [{ indicator := "missing_human_behaviors"
           score := 25
           description := "Missing typical human browsing behaviors"
           evidence := [("missing_behaviors", .strList missing_behaviors),
                        ("present_behaviors", .optStrList action_types)] }]
      else []
    pure (inds1 ++ inds2)

/-- The two cardinality aggregates of `_detect_ip_anomalies`' query. -/
structure IpAggs where
  unique_sessions : Nat
  unique_users : Nat
deriving DecidableEq, Repr

/-- `_detect_ip_anomalies`: reads the first action's IP (a falsy IP is a
no-op) and queries the behaviour store; a raised query exception is caught
and contributes nothing. -/
def detect_ip_anomalies (ipAggResp : String → Except String IpAggs)
    (session_data : SessionData) : List RiskIndicator :=
  match session_data.actions with
  | [] => []
  | first :: _ =>
    match first.ip_address with
    | none => []
    | some ip =>
      if ip = "" then []
      else
        match ipAggResp ip with
        | .error _ => []
        | .ok aggs =>
          let sessc := aggs.unique_sessions
          let userc := aggs.unique_users
          if sessc > 10 then
            [{ indicator := "high_ip_activity"
               score := 20 + min ((sessc : Rat) * 2) 40
               description := s!"High activity from IP: {sessc} sessions in 1 hour"
               evidence := [("ip_address", .str ip),
                            ("session_count", .nat sessc),
                            ("user_count", .nat userc)] }]
          else []

/-- `_detect_user_anomalies`: runs the historical query (whose failure is
caught and logged) but never converts the aggregates into a scored
indicator; the result is always the empty list. -/
def detect_user_anomalies (userHistResp : String → Except String Unit)
    (user_id : String) (_session_data : SessionData) : List RiskIndicator :=
  match userHistResp user_id with
  | _ => []

/-- `_create_low_risk_assessment`. -/
def create_low_risk_assessment (session_id : String) (user_id : Option String)
    (now : Rat) : FraudAssessment :=
  { session_id := session_id
    user_id := user_id
    total_risk_score := 0
    risk_level := "LOW"
    indicators := []
    recommended_action := "ALLOW"
    timestamp := now }

/-- The external store responses consumed by one `assess_session_risk`
call: the session search result, the per-IP aggregate query result, and the
per-user historical query result. -/
structure StoreEnv where
  sessionResp : Except String (List Action)
  ipAggResp : String → Except String IpAggs
  userHistResp : String → Except String Unit

/-- `assess_session_risk`: the full pipeline.  `now` stands for
`datetime.utcnow()`.  An uncaught detector exception (a malformed
timestamp) propagates to the caller as `Except.error`. -/
def assess_session_risk (env : StoreEnv) (session_id : String)
    (user_id : Option String) (now : Rat) : Except String FraudAssessment :=
  match get_session_data env.sessionResp with
  | none => .ok (create_low_risk_assessment session_id user_id now)
  | some session_data => do
    let inds1 ← detect_rapid_fire_behavior session_data
    let inds2 := detect_high_quantity_purchases session_data
    let inds3 := detect_multiple_event_targeting session_data
    let inds4 ← detect_bot_patterns session_data
    let inds5 := detect_ip_anomalies env.ipAggResp session_data
    let inds6 :=
      if truthyStr user_id then
        detect_user_anomalies env.userHistResp (user_id.getD "") session_data
      else []
    let indicators := inds1 ++ inds2 ++ inds3 ++ inds4 ++ inds5 ++ inds6
    let total_score := (indicators.map (fun ind => ind.score)).sum
    let risk_level := calculate_risk_level total_score
    let recommended_action := get_recommended_action risk_level indicators
    .ok { session_id := session_id
          user_id := user_id
          total_risk_score := total_score
          risk_level := risk_level
          indicators := indicators
          recommended_action := recommended_action
          timestamp := now }

/-- One bucket of the `ip_analysis` terms aggregation: its key and the
sub-aggregation values the code reads.  Cardinalities and sums arrive as
numbers (`Rat` models the store's numeric values). -/
structure IpBucket where
  key : String
  unique_users : Rat
  total_quantity : Rat
  user_agents : List String
deriving DecidableEq, Repr

/-- One bucket of the `user_agent_analysis` terms aggregation. -/
structure UaBucket where
  key : String
  unique_ips : Rat
  total_purchases : Rat
deriving DecidableEq, Repr

/-- The aggregations of a successful scalping search response. -/
structure ScalpingAggs where
  ip_buckets : List IpBucket
  ua_buckets : List UaBucket
deriving DecidableEq, Repr

/-- One entry of the `networks` list built by `_analyze_scalping_patterns`. -/
structure ScalpingNetwork where
  type : String
  identifier : String
  evidence : List (String × Evid)
  risk_score : Rat
deriving DecidableEq, Repr

/-- The dict returned by `detect_scalping_networks`.  The error path builds
a dict with only `networks_detected` and `risk_level`; keys absent from it
are modelled as `none`. -/
structure ScalpingResult where
  event_id : Option String
  networks_detected : List ScalpingNetwork
  risk_level : String
  total_networks : Option Nat
  max_network_risk : Option Rat
deriving DecidableEq, Repr

/-- Python `max(xs, default=d)`. -/
def listMaxD (d : Rat) : List Rat → Rat
  | [] => d
  | x :: xs => xs.foldl max x

/-- The body of `_analyze_scalping_patterns`' IP loop: a bucket with more
than 3 distinct users and summed quantity above 20 yields an `ip_based`
network. -/
def ipNetworkEntry (bucket : IpBucket) : Option ScalpingNetwork :=
  if bucket.unique_users > 3 ∧ bucket.total_quantity > 20 then
    some { type := "ip_based"
           identifier := bucket.key
           evidence := [("unique_users", .rat bucket.unique_users),
                        ("total_quantity", .rat bucket.total_quantity),
                        ("user_agents", .strList bucket.user_agents)]
           risk_score := min (bucket.unique_users * bucket.total_quantity / 10) 100 }
  else none

/-- The body of `_analyze_scalping_patterns`' user-agent loop: a bucket with
more than 5 distinct IPs and more than 15 summed purchases yields a
`user_agent_based` network. -/
def uaNetworkEntry (bucket : UaBucket) : Option ScalpingNetwork :=
  if bucket.unique_ips > 5 ∧ bucket.total_purchases > 15 then
    some { type := "user_agent_based"
           identifier := bucket.key
           evidence := [("unique_ips", .rat bucket.unique_ips),
                        ("total_purchases", .rat bucket.total_purchases)]
           risk_score := min (bucket.unique_ips * bucket.total_purchases / 5) 100 }
  else none

/-- `_analyze_scalping_patterns`. -/
def analyze_scalping_patterns (aggs : ScalpingAggs) (event_id : String) :
    ScalpingResult :=
  let ipNetworks := aggs.ip_buckets.filterMap ipNetworkEntry
  let uaNetworks := aggs.ua_buckets.filterMap uaNetworkEntry
  let networks := ipNetworks ++ uaNetworks
  let max_risk := listMaxD 0 (networks.map (fun n => n.risk_score))
  let risk_level :=
    if max_risk > 75 then "CRITICAL"
    else if max_risk > 50 then "HIGH"
    else if max_risk > 25 then "MEDIUM"
    else "LOW"
  { event_id := some event_id
    networks_detected := networks
    risk_level := risk_level
    total_networks := some networks.length
    max_network_risk := some max_risk }

/-- `detect_scalping_networks`: a raised search exception is caught and
yields the two-key dict with an empty network list and risk level
"UNKNOWN". -/
def detect_scalping_networks (searchResp : Except String ScalpingAggs)
    (event_id : String) : ScalpingResult :=
  match searchResp with
  | .ok response => analyze_scalping_patterns response event_id
  | .error _ =>
    { event_id := none
      networks_detected := []
      risk_level := "UNKNOWN"
      total_networks := none
      max_network_risk := none }

/-- One bucket of the dashboard's `threat_timeline` date histogram. -/
structure ThreatTimelineBucket where
  key_as_string : String
  doc_count : Nat
  high_risk_doc_count : Nat
deriving DecidableEq, Repr

/-- The aggregations of a successful dashboard search response. -/
structure DashboardAggs where
  flagged_doc_count : Nat
  indicator_type_buckets : List (String × Nat)
  blocked_ips_value : Nat
  threat_timeline_buckets : List ThreatTimelineBucket
deriving DecidableEq, Repr

/-- The dict built by `_format_threat_dashboard`. -/
structure ThreatDashboard where
  current_threat_level : String
  total_flagged : Nat
  by_type : List (String × Nat)
  blocked_ips : Nat
  threat_timeline : List (String × Nat × Nat)
deriving DecidableEq, Repr

/-- `_format_threat_dashboard`: `current_threat_level` is the hard-coded
string literal "MEDIUM" (the source notes "Would be calculated from recent
data"). -/
def format_threat_dashboard (aggs : DashboardAggs) : ThreatDashboard :=
  { current_threat_level := "MEDIUM"
    total_flagged := aggs.flagged_doc_count
    by_type := aggs.indicator_type_buckets
    blocked_ips := aggs.blocked_ips_value
    threat_timeline := aggs.threat_timeline_buckets.map
      (fun b => (b.key_as_string, b.doc_count, b.high_risk_doc_count)) }

/-- `get_real_time_threat_dashboard`: a raised search exception is caught
and yields the empty dict, modelled as `none`. -/
def get_real_time_threat_dashboard (searchResp : Except String DashboardAggs) :
    Option ThreatDashboard :=
  match searchResp with
  | .ok response => some (format_threat_dashboard response)
  | .error _ => none

/-- Successive differences of a list of times. -/
def successiveDiffs : List Rat → List Rat
  | a :: b :: rest => (b - a) :: successiveDiffs (b :: rest)
  | _ => []

/-- Spec-side reading of the rapid-fire gap computation, written from the
spec's words "successive time gaps between consecutive actions (sorted by
timestamp)": parse every timestamp and diff consecutive times in ascending
order. -/
def specSortedGaps (actions : List Action) : Except String (List Rat) := do
  let times ← actions.mapM (fun action => parseTimestamp action.timestamp)
  pure (successiveDiffs (times.insertionSort (· ≤ ·)))

/-- Spec-side bucketing of the maximum network risk score, written from the
spec's words (strict comparisons): `>75` CRITICAL, `>50` HIGH, `>25`
MEDIUM, else LOW. -/
def specScalpingBucket (m : Rat) : String :=
  if m > 75 then "CRITICAL"
  else if m > 50 then "HIGH"
  else if m > 25 then "MEDIUM"
  else "LOW"

/-- A store environment whose session search succeeds with zero hits. -/
def c3Env : StoreEnv :=
  { sessionResp := .ok []
    ipAggResp := fun _ => .error "store down"
    userHistResp := fun _ => .error "store down" }

/-- A single `add_to_cart` hit requesting 12 tickets. -/
def c2Act : Action :=
  { action_type := some "add_to_cart", timestamp := .valid 0, event_id := some "ev1",
    quantity := some 12, ip_address := none }

/-- A store environment returning exactly the one-action history `c2Act`. -/
def c2Env : StoreEnv :=
  { sessionResp := .ok [c2Act]
    ipAggResp := fun _ => .error "store down"
    userHistResp := fun _ => .error "store down" }

/-- The assessment the engine produces for `c2Env`. -/
def c2A : FraudAssessment :=
  { session_id := "s9", user_id := none, total_risk_score := 49, risk_level := "LOW"
    indicators := [{ indicator := "high_quantity_single", score := 49,
                     description := "Attempted to purchase 12 tickets in single transaction",
                     evidence := [("quantity", .int 12), ("event_id", .optStr (some "ev1")),
                                  ("timestamp", .ts (.valid 0))] }]
    recommended_action := "MONITOR", timestamp := 0 }

/-- An `add_to_cart` action for 9 tickets. -/
def c4Act9 : Action :=
  { action_type := some "add_to_cart", timestamp := .valid 0, event_id := some "e1",
    quantity := some 9, ip_address := none }

/-- An `add_to_cart` action for exactly 11 tickets. -/
def c4Act11 : Action :=
  { action_type := some "add_to_cart", timestamp := .valid 1, event_id := some "e1",
    quantity := some 11, ip_address := none }

/-- An `add_to_cart` action for 12 tickets. -/
def c4Act12 : Action :=
  { action_type := some "add_to_cart", timestamp := .valid 1, event_id := some "e1",
    quantity := some 12, ip_address := none }

/-- A session whose cart quantities sum to exactly 20. -/
def c4Sd20 : SessionData :=
  { actions := [c4Act11, c4Act9], session_start := .valid 0, latest_action := .valid 1 }

/-- A session whose cart quantities sum to exactly 21. -/
def c4Sd21 : SessionData :=
  { actions := [c4Act12, c4Act9], session_start := .valid 0, latest_action := .valid 1 }

/-- A plain `view` action at time `t` seconds. -/
def c5SlowAction (t : Rat) : Action :=
  { action_type := some "view", timestamp := .valid t, event_id := some "e1",
    quantity := none, ip_address := some "1.2.3.4" }

/-- A session of 7 actions spaced a full 100 seconds apart, listed
newest-first exactly as the descending-sort session query returns them. -/
def c5SlowSession : SessionData :=
  { actions := [c5SlowAction 600, c5SlowAction 500, c5SlowAction 400, c5SlowAction 300,
                c5SlowAction 200, c5SlowAction 100, c5SlowAction 0]
    session_start := .valid 0
    latest_action := .valid 600 }

/-- A store environment whose session search raises. -/
def c7FailEnv : StoreEnv :=
  { sessionResp := .error "search raised"
    ipAggResp := fun _ => .error "store down"
    userHistResp := fun _ => .error "store down" }

/-- A store environment whose session search succeeds with zero hits. -/
def c7NoDataEnv : StoreEnv :=
  { sessionResp := .ok []
    ipAggResp := fun _ => .error "store down"
    userHistResp := fun _ => .error "store down" }

/-- An action with a parseable timestamp. -/
def c8ValidAct : Action :=
  { action_type := some "add_to_cart", timestamp := .valid 10, event_id := some "e1",
    quantity := some 12, ip_address := some "1.2.3.4" }

/-- An action whose timestamp string cannot be parsed. -/
def c8BadAct : Action :=
  { action_type := some "add_to_cart", timestamp := .malformed "not-a-date",
    event_id := some "e1", quantity := some 15, ip_address := some "1.2.3.4" }

/-- A store environment returning a 2-action history whose second action has
a malformed timestamp. -/
def c8Env : StoreEnv :=
  { sessionResp := .ok [c8ValidAct, c8BadAct]
    ipAggResp := fun _ => .error "store down"
    userHistResp := fun _ => .error "store down" }

theorem exceptBind_ok {ε α β : Type} (a : α) (f : α → Except ε β) :
    (Except.ok a : Except ε α) >>= f = f a := rfl

theorem exceptBind_error {ε α β : Type} (e : ε) (f : α → Except ε β) :
    (Except.error e : Except ε α) >>= f = Except.error e := rfl

theorem exceptPure {ε α : Type} (a : α) : (pure a : Except ε α) = Except.ok a := rfl

/-- C1: for every total risk score `s` the derived risk level is CRITICAL if
`s ≥ 90`, else HIGH if `s ≥ 75`, else MEDIUM if `s ≥ 50`, else LOW, with
boundaries inclusive at the lower edge (exactly 50 maps to MEDIUM and
exactly 90 to CRITICAL), and the recommended action is the pure function of
that level alone (CRITICAL → BLOCK_IMMEDIATELY, HIGH → REQUIRE_VERIFICATION,
MEDIUM → ADD_FRICTION, LOW → MONITOR), independent of the indicator list. -/
theorem C1_risk_level_and_action :
    (∀ s : Rat, calculate_risk_level s = specRiskLevel s) ∧
    (∀ (s : Rat) (inds : List RiskIndicator),
      get_recommended_action (calculate_risk_level s) inds =
        specRecommendedAction (specRiskLevel s)) ∧
    (∀ (l : String) (inds inds2 : List RiskIndicator),
      get_recommended_action l inds = get_recommended_action l inds2) ∧
    calculate_risk_level 50 = "MEDIUM" ∧
    calculate_risk_level 90 = "CRITICAL" := by
  refine ⟨fun s => rfl, fun s inds => ?_, fun l inds inds2 => rfl, by decide, by decide⟩
  by_cases h90 : (90 : Rat) ≤ s
  · simp [calculate_risk_level, specRiskLevel, get_recommended_action,
      specRecommendedAction, h90]
  · by_cases h75 : (75 : Rat) ≤ s
    · simp [calculate_risk_level, specRiskLevel, get_recommended_action,
        specRecommendedAction, h90, h75]
    · by_cases h50 : (50 : Rat) ≤ s
      · simp [calculate_risk_level, specRiskLevel, get_recommended_action,
          specRecommendedAction, h90, h75, h50]
      · simp [calculate_risk_level, specRiskLevel, get_recommended_action,
          specRecommendedAction, h90, h75, h50]

/-- C2: for every assessment the pipeline returns, `total_risk_score` is the
exact arithmetic sum of the scores of all indicators in the assessment's
indicator list — no clamping and no deduplication at the assessment level. -/
theorem C2_total_score_is_exact_sum (env : StoreEnv) (session_id : String)
    (user_id : Option String) (now : Rat) (a : FraudAssessment)
    (h : assess_session_risk env session_id user_id now = .ok a) :
    a.total_risk_score = (a.indicators.map (fun ind => ind.score)).sum := by
  unfold assess_session_risk at h
  cases hs : get_session_data env.sessionResp with
  | none =>
    rw [hs] at h
    injection h with h
    subst h
    rfl
  | some sd =>
    rw [hs] at h
    dsimp only at h
    cases h1 : detect_rapid_fire_behavior sd with
    | error e =>
      rw [h1] at h
      simp [exceptBind_error] at h
    | ok inds1 =>
      rw [h1] at h
      cases h4 : detect_bot_patterns sd with
      | error e =>
        rw [h4] at h
        simp [exceptBind_ok, exceptBind_error] at h
      | ok inds4 =>
        rw [h4] at h
        simp only [exceptBind_ok, exceptPure] at h
        injection h with h
        subst h
        rfl

theorem c2_concrete : assess_session_risk c2Env "s9" none 0 = .ok c2A := by
  norm_num +decide [assess_session_risk, get_session_data, c2Env, c2Act, c2A,
    detect_rapid_fire_behavior, detect_high_quantity_purchases, hqSingleEntry,
    hqCumulativeEntry, cartTotalQuantity, uniqueEventCount, detect_multiple_event_targeting,
    detect_bot_patterns, detect_ip_anomalies, truthyStr, timeGaps, parseTimestamp,
    exceptBind_ok, exceptPure, calculate_risk_level, get_recommended_action,
    List.filterMap_cons, List.dedup_cons_of_not_mem]

/-- Witness for C2 at a concrete one-action session producing one
`high_quantity_single` indicator of score 49. -/
theorem C2_total_score_is_exact_sum_witness :
    c2A.total_risk_score = (c2A.indicators.map (fun ind => ind.score)).sum :=
  C2_total_score_is_exact_sum c2Env "s9" none 0 c2A c2_concrete

/-- C3: a session whose recorded action history is empty is assessed as
risk level LOW with total score 0, an empty indicator list and recommended
action ALLOW, returned as a defined result rather than an error. -/
theorem C3_empty_session_floor (env : StoreEnv) (session_id : String)
    (user_id : Option String) (now : Rat) (h : env.sessionResp = .ok []) :
    assess_session_risk env session_id user_id now =
      .ok { session_id := session_id, user_id := user_id, total_risk_score := 0,
            risk_level := "LOW", indicators := [], recommended_action := "ALLOW",
            timestamp := now } := by
  simp [assess_session_risk, get_session_data, h, create_low_risk_assessment]

/-- Witness for C3 at a concrete empty-history environment. -/
theorem C3_empty_session_floor_witness :
    c3Env.sessionResp = .ok ([] : List Action) ∧
    assess_session_risk c3Env "session_123" (some "user_456") 0 =
      .ok { session_id := "session_123", user_id := some "user_456", total_risk_score := 0,
            risk_level := "LOW", indicators := [], recommended_action := "ALLOW",
            timestamp := 0 } :=
  ⟨rfl, C3_empty_session_floor c3Env "session_123" (some "user_456") 0 rfl⟩

theorem hqSingles_name (l : List Action) (i : RiskIndicator)
    (hi : i ∈ l.filterMap hqSingleEntry) : i.indicator = "high_quantity_single" := by
  obtain ⟨a, -, ha⟩ := List.mem_filterMap.mp hi
  by_cases h1 : a.action_type = some "add_to_cart"
  · by_cases h2 : (10 : Int) < a.quantity.getD 1
    · simp [hqSingleEntry, h1, h2] at ha
      rw [← ha]
    · simp [hqSingleEntry, h1, h2] at ha
  · simp [hqSingleEntry, h1] at ha

theorem hqSingles_scores (l : List Action) :
    ((l.filterMap hqSingleEntry).map (fun i => i.score)) =
      (l.filter (fun a =>
          a.action_type == some "add_to_cart" && decide (10 < a.quantity.getD 1))).map
        (fun a => 25 + min ((a.quantity.getD 1 : Rat) * 2) 50) := by
  induction l with
  | nil => rfl
  | cons a t ih =>
    by_cases h1 : a.action_type = some "add_to_cart"
    · by_cases h2 : (10 : Int) < a.quantity.getD 1
      · simp [hqSingleEntry, List.filterMap_cons, List.filter_cons, h1, h2, ih]
      · simp [hqSingleEntry, List.filterMap_cons, List.filter_cons, h1, h2, ih]
    · simp [hqSingleEntry, List.filterMap_cons, List.filter_cons, h1, ih]

/-- C4: the high-quantity detector emits one `high_quantity_single`
indicator scoring `25 + min(quantity * 2, 50)` for exactly the `add_to_cart`
actions with quantity strictly above 10 (quantity 11 scores 47), and emits
exactly one `high_quantity_cumulative` indicator scoring
`20 + min(sum, 60)` precisely when the session's summed cart quantity
strictly exceeds 20 (a sum of exactly 20 triggers nothing; 21 scores 41). -/
theorem C4_high_quantity_detector :
    (∀ sd : SessionData,
      ((detect_high_quantity_purchases sd).filter
          (fun i => i.indicator == "high_quantity_single")).map (fun i => i.score) =
        (sd.actions.filter (fun a =>
            a.action_type == some "add_to_cart" && decide (10 < a.quantity.getD 1))).map
          (fun a => 25 + min ((a.quantity.getD 1 : Rat) * 2) 50)) ∧
    (∀ sd : SessionData,
      ((detect_high_quantity_purchases sd).filter
          (fun i => i.indicator == "high_quantity_cumulative")).map (fun i => i.score) =
        (if cartTotalQuantity sd.actions > 20 then
          [20 + min ((cartTotalQuantity sd.actions : Rat)) 60] else [])) ∧
    (∀ sd : SessionData, cartTotalQuantity sd.actions = 20 →
      (detect_high_quantity_purchases sd).filter
        (fun i => i.indicator == "high_quantity_cumulative") = []) ∧
    (∀ a : Action, a.action_type = some "add_to_cart" → a.quantity = some 11 →
      ∃ i, hqSingleEntry a = some i ∧ i.score = 47) ∧
    (∀ sd : SessionData, cartTotalQuantity sd.actions = 21 →
      ((detect_high_quantity_purchases sd).filter
          (fun i => i.indicator == "high_quantity_cumulative")).map (fun i => i.score) = [41]) := by
  have hsing : ∀ sd : SessionData,
      (detect_high_quantity_purchases sd).filter
          (fun i => i.indicator == "high_quantity_single") =
        sd.actions.filterMap hqSingleEntry := by
    intro sd
    unfold detect_high_quantity_purchases
    rw [List.filter_append]
    rw [List.filter_eq_self.mpr (fun i hi => by simp [hqSingles_name sd.actions i hi])]
    simp only [hqCumulativeEntry]
    split_ifs with h
    · simp
    · simp
  have hcum : ∀ sd : SessionData,
      (detect_high_quantity_purchases sd).filter
          (fun i => i.indicator == "high_quantity_cumulative") =
        hqCumulativeEntry sd.actions := by
    intro sd
    unfold detect_high_quantity_purchases
    rw [List.filter_append]
    rw [List.filter_eq_nil_iff.mpr (fun i hi => by simp [hqSingles_name sd.actions i hi])]
    simp only [hqCumulativeEntry]
    split_ifs with h
    · simp
    · simp
  have hcumscore : ∀ actions : List Action,
      (hqCumulativeEntry actions).map (fun i => i.score) =
        (if cartTotalQuantity actions > 20 then
          [20 + min ((cartTotalQuantity actions : Rat)) 60] else []) := by
    intro actions
    simp only [hqCumulativeEntry]
    split_ifs with h
    · simp
    · simp
  refine ⟨?_, ?_, ?_, ?_, ?_⟩
  · intro sd
    rw [hsing sd, hqSingles_scores]
  · intro sd
    rw [hcum sd, hcumscore]
  · intro sd h
    rw [hcum sd]
    simp only [hqCumulativeEntry, h]
    norm_num
  · intro a h1 h2
    have e : hqSingleEntry a = some
        { indicator := "high_quantity_single", score := 25 + min ((11 : Rat) * 2) 50,
          description := "Attempted to purchase 11 tickets in single transaction",
          evidence := [("quantity", .int 11), ("event_id", .optStr a.event_id),
                       ("timestamp", .ts a.timestamp)] } := by
      simp +decide [hqSingleEntry, h1, h2]
    exact ⟨_, e, by norm_num⟩
  · intro sd h
    rw [hcum sd]
    simp only [hqCumulativeEntry, h]
    norm_num

/-- Witness for C4 at concrete sessions with cart sums exactly 20 and 21
and a single `add_to_cart` action of quantity exactly 11. -/
theorem C4_high_quantity_detector_witness :
    ((detect_high_quantity_purchases c4Sd20).filter
        (fun i => i.indicator == "high_quantity_cumulative") = []) ∧
    (∃ i, hqSingleEntry c4Act11 = some i ∧ i.score = 47) ∧
    (((detect_high_quantity_purchases c4Sd21).filter
        (fun i => i.indicator == "high_quantity_cumulative")).map (fun i => i.score) = [41]) :=
  ⟨C4_high_quantity_detector.2.2.1 c4Sd20 (by decide),
   C4_high_quantity_detector.2.2.2.1 c4Act11 rfl rfl,
   C4_high_quantity_detector.2.2.2.2 c4Sd21 (by decide)⟩

theorem c5SlowGaps :
    timeGaps [c5SlowAction 600, c5SlowAction 500, c5SlowAction 400, c5SlowAction 300,
              c5SlowAction 200, c5SlowAction 100, c5SlowAction 0] =
      .ok [-100, -100, -100, -100, -100, -100] := by
  norm_num [c5SlowAction, timeGaps, parseTimestamp, exceptBind_ok, exceptPure]

/-- C5: the rapid-fire detector consumes the session actions in the stored
newest-first order, so on a 7-action session whose consecutive actions are a
full 100 seconds apart every computed gap is -100 s; both
`rapid_fire_clicks` (30.0) and `superhuman_speed` (50.0) fire even though
the gaps between consecutive actions in ascending timestamp order contain
zero entries below 2.0 s and zero entries below 0.5 s, contradicting the
claimed gap-threshold behaviour (and the indicator's own "< 2s intervals"
description). -/
theorem C5_rapid_fire_code_bug :
    (detect_rapid_fire_behavior c5SlowSession).map
        (fun l => l.map (fun i => (i.indicator, i.score))) =
      .ok [("rapid_fire_clicks", 30), ("superhuman_speed", 50)] ∧
    (specSortedGaps c5SlowSession.actions).map
        (fun gaps => ((gaps.filter (fun gap => gap < 2)).length,
                      (gaps.filter (fun gap => gap < 1/2)).length)) =
      .ok (0, 0) := by
  constructor
  · norm_num [detect_rapid_fire_behavior, c5SlowSession, exceptBind_ok, exceptPure,
      c5SlowGaps, List.filter_cons, Except.map]
  · have hs : specSortedGaps c5SlowSession.actions = .ok [100, 100, 100, 100, 100, 100] := by
      norm_num [specSortedGaps, c5SlowSession, c5SlowAction, parseTimestamp, List.mapM,
        List.mapM.loop, List.insertionSort, List.orderedInsert, successiveDiffs,
        exceptBind_ok, exceptPure]
    rw [hs]
    norm_num [Except.map, List.filter_cons]

theorem ipNets_type (l : List IpBucket) (n : ScalpingNetwork)
    (hn : n ∈ l.filterMap ipNetworkEntry) : n.type = "ip_based" := by
  obtain ⟨b, -, hb⟩ := List.mem_filterMap.mp hn
  by_cases h : b.unique_users > 3 ∧ b.total_quantity > 20
  · simp [ipNetworkEntry, h] at hb
    rw [← hb]
  · simp [ipNetworkEntry, h] at hb

theorem uaNets_type (l : List UaBucket) (n : ScalpingNetwork)
    (hn : n ∈ l.filterMap uaNetworkEntry) : n.type = "user_agent_based" := by
  obtain ⟨b, -, hb⟩ := List.mem_filterMap.mp hn
  by_cases h : b.unique_ips > 5 ∧ b.total_purchases > 15
  · simp [uaNetworkEntry, h] at hb
    rw [← hb]
  · simp [uaNetworkEntry, h] at hb

theorem ipNets_pairs (l : List IpBucket) :
    (l.filterMap ipNetworkEntry).map (fun n => (n.identifier, n.risk_score)) =
      (l.filter (fun b => decide (b.unique_users > 3) && decide (b.total_quantity > 20))).map
        (fun b => (b.key, min (b.unique_users * b.total_quantity / 10) 100)) := by
  induction l with
  | nil => rfl
  | cons b t ih =>
    by_cases h : b.unique_users > 3 ∧ b.total_quantity > 20
    · simp [ipNetworkEntry, List.filterMap_cons, List.filter_cons, h, h.1, h.2, ih]
    · simp [ipNetworkEntry, List.filterMap_cons, List.filter_cons, h, ih]

theorem uaNets_pairs (l : List UaBucket) :
    (l.filterMap uaNetworkEntry).map (fun n => (n.identifier, n.risk_score)) =
      (l.filter (fun b => decide (b.unique_ips > 5) && decide (b.total_purchases > 15))).map
        (fun b => (b.key, min (b.unique_ips * b.total_purchases / 5) 100)) := by
  induction l with
  | nil => rfl
  | cons b t ih =>
    by_cases h : b.unique_ips > 5 ∧ b.total_purchases > 15
    · simp [uaNetworkEntry, List.filterMap_cons, List.filter_cons, h, h.1, h.2, ih]
    · simp [uaNetworkEntry, List.filterMap_cons, List.filter_cons, h, ih]

/-- C6: a scalping run emits an `ip_based` network exactly for the IP
buckets with more than 3 distinct users and summed quantity above 20,
scored `min(users * quantity / 10, 100)`; a `user_agent_based` network
exactly for the agent buckets with more than 5 distinct IPs and more than
15 summed purchases, scored `min(ips * purchases / 5, 100)`; the run's
risk level buckets the maximum network score with strict comparisons
(`>75` CRITICAL, `>50` HIGH, `>25` MEDIUM, else LOW); and an empty network
list yields risk level LOW with max score 0. -/
theorem C6_scalping_networks :
    (∀ (aggs : ScalpingAggs) (event_id : String),
      ((analyze_scalping_patterns aggs event_id).networks_detected.filter
          (fun n => n.type == "ip_based")).map (fun n => (n.identifier, n.risk_score)) =
        (aggs.ip_buckets.filter (fun b =>
            decide (b.unique_users > 3) && decide (b.total_quantity > 20))).map
          (fun b => (b.key, min (b.unique_users * b.total_quantity / 10) 100))) ∧
    (∀ (aggs : ScalpingAggs) (event_id : String),
      ((analyze_scalping_patterns aggs event_id).networks_detected.filter
          (fun n => n.type == "user_agent_based")).map (fun n => (n.identifier, n.risk_score)) =
        (aggs.ua_buckets.filter (fun b =>
            decide (b.unique_ips > 5) && decide (b.total_purchases > 15))).map
          (fun b => (b.key, min (b.unique_ips * b.total_purchases / 5) 100))) ∧
    (∀ (aggs : ScalpingAggs) (event_id : String),
      (analyze_scalping_patterns aggs event_id).risk_level =
        specScalpingBucket (listMaxD 0
          ((analyze_scalping_patterns aggs event_id).networks_detected.map
            (fun n => n.risk_score))) ∧
      (analyze_scalping_patterns aggs event_id).max_network_risk =
        some (listMaxD 0
          ((analyze_scalping_patterns aggs event_id).networks_detected.map
            (fun n => n.risk_score)))) ∧
    (∀ (aggs : ScalpingAggs) (event_id : String),
      (analyze_scalping_patterns aggs event_id).networks_detected = [] →
      (analyze_scalping_patterns aggs event_id).risk_level = "LOW" ∧
      (analyze_scalping_patterns aggs event_id).max_network_risk = some 0) := by
  have hnets : ∀ (aggs : ScalpingAggs) (event_id : String),
      (analyze_scalping_patterns aggs event_id).networks_detected =
        aggs.ip_buckets.filterMap ipNetworkEntry ++ aggs.ua_buckets.filterMap uaNetworkEntry :=
    fun aggs event_id => rfl
  refine ⟨?_, ?_, fun aggs event_id => ⟨rfl, rfl⟩, ?_⟩
  · intro aggs event_id
    rw [hnets, List.filter_append]
    rw [List.filter_eq_self.mpr (fun n hn => by
      simp [ipNets_type aggs.ip_buckets n hn])]
    rw [List.filter_eq_nil_iff.mpr (fun n hn => by
      simp [uaNets_type aggs.ua_buckets n hn])]
    rw [List.append_nil, ipNets_pairs]
  · intro aggs event_id
    rw [hnets, List.filter_append]
    rw [List.filter_eq_nil_iff.mpr (fun n hn => by
      simp [ipNets_type aggs.ip_buckets n hn])]
    rw [List.filter_eq_self.mpr (fun n hn => by
      simp [uaNets_type aggs.ua_buckets n hn])]
    rw [List.nil_append, uaNets_pairs]
  · intro aggs event_id h
    constructor
    · have hl : (analyze_scalping_patterns aggs event_id).risk_level =
          specScalpingBucket (listMaxD 0
            ((analyze_scalping_patterns aggs event_id).networks_detected.map
              (fun n => n.risk_score))) := rfl
      rw [hl, h]
      norm_num [listMaxD, specScalpingBucket]
    · have hm : (analyze_scalping_patterns aggs event_id).max_network_risk =
          some (listMaxD 0
            ((analyze_scalping_patterns aggs event_id).networks_detected.map
              (fun n => n.risk_score))) := rfl
      rw [hm, h]
      rfl

/-- Witness for C6 at a run whose aggregations contain no buckets. -/
theorem C6_scalping_networks_witness :
    (analyze_scalping_patterns { ip_buckets := [], ua_buckets := [] } "event_42").risk_level =
      "LOW" ∧
    (analyze_scalping_patterns { ip_buckets := [], ua_buckets := [] } "event_42").max_network_risk =
      some 0 :=
  C6_scalping_networks.2.2.2 { ip_buckets := [], ua_buckets := [] } "event_42" rfl

/-- C7 counterexample: when the session search raises, the assessment comes
back with recommended action ALLOW — not MONITOR as claimed — and is
byte-identical to the zero-action floor assessment, so the degrade path is
not distinguishable from a genuine zero-action session and ALLOW is not
reserved for zero-action sessions. -/
theorem C7_store_failure_counterexample :
    assess_session_risk c7FailEnv "s1" (some "u1") 0 =
      .ok { session_id := "s1", user_id := some "u1", total_risk_score := 0,
            risk_level := "LOW", indicators := [], recommended_action := "ALLOW",
            timestamp := 0 } ∧
    assess_session_risk c7FailEnv "s1" (some "u1") 0 =
      assess_session_risk c7NoDataEnv "s1" (some "u1") 0 ∧
    "ALLOW" ≠ "MONITOR" :=
  ⟨rfl, rfl, by decide⟩

/-- C7 amended: when the session-store read fails, `assess_session_risk`
does not raise — it returns the same LOW / score-0 / empty-indicator
assessment with recommended action ALLOW that a zero-action session
produces, so the degrade result is not distinguishable from the genuine
no-data floor. -/
theorem C7_store_failure_degrades_to_allow (env env2 : StoreEnv) (session_id : String)
    (user_id : Option String) (now : Rat) (e : String)
    (h : env.sessionResp = .error e) (h2 : env2.sessionResp = .ok []) :
    assess_session_risk env session_id user_id now =
      .ok (create_low_risk_assessment session_id user_id now) ∧
    (create_low_risk_assessment session_id user_id now).recommended_action = "ALLOW" ∧
    assess_session_risk env session_id user_id now =
      assess_session_risk env2 session_id user_id now := by
  refine ⟨?_, rfl, ?_⟩ <;> simp [assess_session_risk, get_session_data, h, h2]

/-- Witness for the amended C7 at a concrete raising store environment. -/
theorem C7_store_failure_degrades_to_allow_witness :
    (assess_session_risk c7FailEnv "s2" none 5 =
      .ok (create_low_risk_assessment "s2" none 5)) ∧
    (create_low_risk_assessment "s2" none 5).recommended_action = "ALLOW" ∧
    assess_session_risk c7FailEnv "s2" none 5 = assess_session_risk c7NoDataEnv "s2" none 5 :=
  C7_store_failure_degrades_to_allow c7FailEnv c7NoDataEnv "s2" none 5 "search raised" rfl rfl

theorem timeGaps_error_of_malformed :
    ∀ (l : List Action), 2 ≤ l.length →
      (∃ a ∈ l, ∃ s, a.timestamp = TimeStr.malformed s) →
      ∃ e, timeGaps l = .error e := by
  intro l
  induction l with
  | nil => intro h; simp at h
  | cons a tl ih =>
    intro hlen hbad
    cases tl with
    | nil => simp at hlen
    | cons b rest =>
      cases hta : a.timestamp with
      | malformed s =>
        exact ⟨s, by simp [timeGaps, parseTimestamp, hta, exceptBind_error]⟩
      | valid t =>
        cases htb : b.timestamp with
        | malformed s =>
          exact ⟨s, by
            simp [timeGaps, parseTimestamp, hta, htb, exceptBind_ok, exceptBind_error]⟩
        | valid t2 =>
          obtain ⟨x, hx, s, hxs⟩ := hbad
          have hxrest : x ∈ rest := by
            rcases List.mem_cons.mp hx with rfl | hx2
            · rw [hta] at hxs
              cases hxs
            · rcases List.mem_cons.mp hx2 with rfl | hx3
              · rw [htb] at hxs
                cases hxs
              · exact hx3
          have hlen2 : 2 ≤ (b :: rest).length := by
            cases rest with
            | nil => exact absurd hxrest (List.not_mem_nil x)
            | cons c rest2 => simp
          obtain ⟨e, he⟩ := ih hlen2 ⟨x, List.mem_cons_of_mem b hxrest, s, hxs⟩
          exact ⟨e, by
            simp [timeGaps, parseTimestamp, hta, htb, exceptBind_ok, he, exceptBind_error]⟩

/-- C8 counterexample: a 2-action history whose second action carries an
unparseable timestamp makes the whole assessment abort with the parse
error instead of completing with the offending action excluded. -/
theorem C8_malformed_timestamp_counterexample :
    assess_session_risk c8Env "s1" none 0 = .error "not-a-date" := by
  norm_num +decide [assess_session_risk, get_session_data, c8Env, c8ValidAct, c8BadAct,
    detect_rapid_fire_behavior, timeGaps, parseTimestamp, exceptBind_ok, exceptBind_error,
    exceptPure]

/-- C8 amended: any action history of length at least 2 containing an
action with an unparseable timestamp aborts the whole assessment — the
parse error raises out of the first gap-based detector and
`assess_session_risk` propagates it, so no detector output (quantity or
otherwise) is produced at all. -/
theorem C8_malformed_timestamp_aborts (env : StoreEnv) (session_id : String)
    (user_id : Option String) (now : Rat) (actions : List Action)
    (h : env.sessionResp = .ok actions) (hlen : 2 ≤ actions.length)
    (hbad : ∃ a ∈ actions, ∃ s, a.timestamp = TimeStr.malformed s) :
    ∃ e, assess_session_risk env session_id user_id now = .error e := by
  obtain ⟨e, he⟩ := timeGaps_error_of_malformed actions hlen hbad
  cases actions with
  | nil => simp at hlen
  | cons first rest =>
    refine ⟨e, ?_⟩
    have hnotlt : ¬ ((first :: rest).length < 2) := by
      simp only [List.length_cons] at hlen ⊢
      omega
    simp only [assess_session_risk, get_session_data, h]
    simp only [detect_rapid_fire_behavior, hnotlt, if_false, ite_false, he,
      exceptBind_error]

/-- Witness for the amended C8 at the concrete malformed-timestamp
environment. -/
theorem C8_malformed_timestamp_aborts_witness :
    ∃ e, assess_session_risk c8Env "s2" (some "u2") 7 = .error e :=
  C8_malformed_timestamp_aborts c8Env "s2" (some "u2") 7 [c8ValidAct, c8BadAct] rfl
    (by decide) ⟨c8BadAct, by simp, "not-a-date", rfl⟩

/-- C9: for every successful dashboard query response, whatever its
aggregation contents, the formatted threat dashboard reports
`current_threat_level` equal to the constant string "MEDIUM". -/
theorem C9_dashboard_threat_level_constant :
    (∀ aggs : DashboardAggs,
      (format_threat_dashboard aggs).current_threat_level = "MEDIUM") ∧
    (∀ aggs : DashboardAggs,
      get_real_time_threat_dashboard (.ok aggs) = some (format_threat_dashboard aggs)) :=
  ⟨fun _ => rfl, fun _ => rfl⟩

/-- C10: when the scalping aggregation query raises, the result is exactly
the two-key dict with an empty network list and risk level "UNKNOWN" — a
level outside LOW/MEDIUM/HIGH/CRITICAL — without the `event_id`,
`total_networks` and `max_network_risk` keys that the success path always
populates. -/
theorem C10_scalping_error_result :
    (∀ e event_id : String,
      detect_scalping_networks (.error e) event_id =
        { event_id := none, networks_detected := [], risk_level := "UNKNOWN",
          total_networks := none, max_network_risk := none }) ∧
    "UNKNOWN" ∉ (["LOW", "MEDIUM", "HIGH", "CRITICAL"] : List String) ∧
    (∀ (aggs : ScalpingAggs) (event_id : String),
      (detect_scalping_networks (.ok aggs) event_id).event_id = some event_id ∧
      (detect_scalping_networks (.ok aggs) event_id).total_networks =
        some (detect_scalping_networks (.ok aggs) event_id).networks_detected.length ∧
      (detect_scalping_networks (.ok aggs) event_id).max_network_risk =
        some (listMaxD 0 ((detect_scalping_networks (.ok aggs) event_id).networks_detected.map
          (fun n => n.risk_score)))) := by
  refine ⟨fun e event_id => rfl, by decide, fun aggs event_id => ⟨rfl, rfl, rfl⟩⟩

end FraudDetection
